import Mathlib

/-!
Verification of the semantic-diff video-description pipeline
(`metrics.py`, `vlm_client.py`, `run_video_diff.py`, `update_metrics.py`,
`analyze_results.py`) against its natural-language specification.

Shallow embedding conventions:
* Python floats are modelled by `ℚ` (all arithmetic here is ratios of
  small integers, exact in both worlds for the properties below).
* Python `dict` objects loaded from / dumped to JSON are modelled as
  association lists `List (String × JVal)`; keys of a JSON object are
  unique, so removing every binding of a key coincides with `dict.pop`.
* The external GPT-2 tokenizer and the vision-language model are external
  collaborators, passed in as opaque function parameters.
-/

namespace SemDiff

/-! ## Shared JSON value model -/

/-- A JSON value as produced by `json.load` / consumed by `json.dump`.
Numbers (Python `int` and `float`) are collapsed into `ℚ`. -/
inductive JVal where
  | jnull : JVal
  | jstr : String → JVal
  | jnum : ℚ → JVal
  | jarr : List JVal → JVal

/-- A JSON object (Python `dict`): an insertion-ordered association list.
Objects read from JSON files have pairwise distinct keys. -/
abbrev Obj := List (String × JVal)

/-- `d.get(k)` : first binding of `k`, if any. -/
def dictGet (d : Obj) (k : String) : Option JVal :=
  (d.find? (fun p => p.1 == k)).map Prod.snd

/-- `d.get(k, v)` : lookup with default. -/
def dictGetD (d : Obj) (k : String) (v : JVal) : JVal :=
  (dictGet d k).getD v

/-- `d[k] = v` : replace the binding in place if the key is present
(keeping its position, as a Python dict does), else append it. -/
def dictSet : Obj → String → JVal → Obj
  | [], k, v => [(k, v)]
  | (k', v') :: rest, k, v =>
      if k' == k then (k', v) :: rest else (k', v') :: dictSet rest k v

/-- `d.pop(k)` : remove the binding of `k`.  JSON objects never bind a key
twice, so removing every binding coincides with Python's `pop`. -/
def dictErase (d : Obj) (k : String) : Obj :=
  d.filter (fun p => ¬ p.1 == k)

/-! ## metrics.py -/

namespace Metrics

/-- One character step of `text.lower()` followed by
`re.sub(r"[^a-z0-9]+", " ", text)`: lower-case the character and map
anything that is not a lower-case letter or digit to a space.
(Replacing each non-alphanumeric character, rather than each maximal run,
by one space yields the same token list after splitting.) -/
def overlapChar (c : Char) : Char :=
  let c := c.toLower
  if ('a' ≤ c ∧ c ≤ 'z') ∨ ('0' ≤ c ∧ c ≤ '9') then c else ' '

/-- `tokenize_for_overlap`: lower-case, turn non-alphanumeric characters
into spaces, split on spaces dropping empty pieces. -/
def tokenize_for_overlap (text : String) : List String :=
  ((text.data.map overlapChar).splitOnP (fun c => c = ' ')).filterMap
    (fun w => if w = [] then none else some (String.mk w))

/-- `jaccard_overlap`: |W1 ∩ W2| / |W1 ∪ W2| over the unique-token sets,
`0.0` when both sets are empty. -/
def jaccard_overlap (t1 t2 : String) : ℚ :=
  let w1 := (tokenize_for_overlap t1).toFinset
  let w2 := (tokenize_for_overlap t2).toFinset
  if w1 = ∅ ∧ w2 = ∅ then 0
  else ((w1 ∩ w2).card : ℚ) / ((w1 ∪ w2).card : ℚ)

/-- `compute_lexical_redundancy`: Jaccard overlap of each adjacent pair,
plus the arithmetic mean; `(0.0, [])` for sequences of length ≤ 1. -/
def compute_lexical_redundancy (texts : List String) : ℚ × List ℚ :=
  if texts.length ≤ 1 then (0, [])
  else
    let overlaps := (texts.zip texts.tail).map (fun p => jaccard_overlap p.1 p.2)
    (overlaps.sum / (overlaps.length : ℚ), overlaps)

/-- The `"__default__"` entry of `CLASS_ACTION_WORDS` (a Python set;
modelled as a list, membership being all that is ever asked of it). -/
def defaultVocab : List String :=
  ["move", "moves", "moving", "moved",
   "push", "pushes", "pushing", "pushed",
   "pull", "pulls", "pulling", "pulled",
   "lift", "lifts", "lifting", "lifted",
   "open", "opens", "opening", "opened",
   "close", "closes", "closing", "closed"]

/-- `CLASS_ACTION_WORDS`: the static class → action-vocabulary table. -/
def CLASS_ACTION_WORDS : List (String × List String) :=
  [("__default__", defaultVocab),
   ("bending something so that it deforms",
    ["bend", "bends", "bending", "bent",
     "deform", "deforms", "deforming", "deformed",
     "curve", "curves", "curving", "curved",
     "warp", "warps", "warping", "warped",
     "flex", "flexes", "flexing", "flexed",
     "twist", "twists", "twisting", "twisted"]),
   ("closing something",
    ["close", "closes", "closing", "closed",
     "shut", "shuts", "shutting",
     "seal", "seals", "sealing", "sealed"]),
   ("folding something",
    ["fold", "folds", "folding", "folded",
     "crease", "creases", "creasing", "creased",
     "flatten", "flattens", "flattening", "flattened"]),
   ("pouring something into something",
    ["pour", "pours", "pouring", "poured",
     "flow", "flows", "flowing", "flowed",
     "fill", "fills", "filling", "filled",
     "stream", "streams", "streaming", "streamed"]),
   ("pouring something into something until it overflows",
    ["pour", "pours", "pouring", "poured",
     "flow", "flows", "flowing", "flowed",
     "fill", "fills", "filling", "filled",
     "overflow", "overflows", "overflowing", "overflowed",
     "spill", "spills", "spilling", "spilled",
     "splash", "splashes", "splashing", "splashed"]),
   ("something falling like a rock",
    ["fall", "falls", "falling", "fell", "fallen",
     "drop", "drops", "dropping", "dropped",
     "plummet", "plummets", "plummeting", "plummeted"]),
   ("throwing something",
    ["throw", "throws", "throwing", "threw", "thrown",
     "toss", "tosses", "tossing", "tossed",
     "fling", "flings", "flinging", "flung",
     "hurl", "hurls", "hurling", "hurled"]),
   ("uncovering something",
    ["uncover", "uncovers", "uncovering", "uncovered",
     "reveal", "reveals", "revealing", "revealed",
     "remove", "removes", "removing", "removed",
     "lift", "lifts", "lifting", "lifted",
     "open", "opens", "opening", "opened"])]

/-- `CLASS_ACTION_WORDS.get(key)`. -/
def classVocabGet (key : String) : Option (List String) :=
  (CLASS_ACTION_WORDS.find? (fun p => p.1 == key)).map Prod.snd

/-- Python's main whitespace characters, as split on by `str.split()`. -/
def isPySpace (c : Char) : Prop :=
  c = ' ' ∨ c = '\t' ∨ c = '\n' ∨ c = '\r' ∨ c = '\x0b' ∨ c = '\x0c'

instance (c : Char) : Decidable (isPySpace c) := by
  unfold isPySpace; infer_instance

/-- `simple_tokenize`: lower-case and split on whitespace, dropping empty
pieces (`str.split()` with no argument). -/
def simple_tokenize (text : String) : List String :=
  ((text.data.map Char.toLower).splitOnP (fun c => isPySpace c)).filterMap
    (fun w => if w = [] then none else some (String.mk w))

/-- Python `str.strip()`: drop leading and trailing whitespace. -/
def pyStrip (cs : List Char) : List Char :=
  ((cs.dropWhile fun c => decide (isPySpace c)).reverse.dropWhile
    fun c => decide (isPySpace c)).reverse

/-- `_normalize_class_name`: `"__default__"` for the empty string, else
trimmed (`strip()`) and lower-cased. -/
def normalize_class_name (cls : String) : String :=
  if cls = "" then "__default__" else String.mk ((pyStrip cls.data).map Char.toLower)

/-- `information_density_class_aware`: fraction of whitespace tokens that
lie in the union of the class vocabulary (empty set for an unknown class)
with the default vocabulary; `0.0` for a text with no tokens. -/
def information_density_class_aware (text cls : String) : ℚ :=
  let tokens := simple_tokenize text
  if tokens = [] then 0
  else
    let key := normalize_class_name cls
    let class_vocab := (classVocabGet key).getD []
    let action_vocab := defaultVocab ++ class_vocab
    let info_tokens := (tokens.filter (fun t => action_vocab.contains t)).length
    (info_tokens : ℚ) / (tokens.length : ℚ)

/-- `average_information_density_class_aware`: arithmetic mean of the
per-text densities, `0.0` for an empty sequence. -/
def average_information_density_class_aware (texts : List String) (cls : String) : ℚ :=
  if texts = [] then 0
  else (texts.map (fun t => information_density_class_aware t cls)).sum / (texts.length : ℚ)

/-- The same computation as `information_density_class_aware` but using
only the `"__default__"` vocabulary (the comparison point named by the
spec; it is what the function computes for an unknown class). -/
def information_density_default (text : String) : ℚ :=
  let tokens := simple_tokenize text
  if tokens = [] then 0
  else
    let info_tokens := (tokens.filter (fun t => defaultVocab.contains t)).length
    (info_tokens : ℚ) / (tokens.length : ℚ)

end Metrics

/-! ## vlm_client.py -/

namespace VlmClient

/-- Outcome of one attempt of the underlying network call made inside
`safe_openai_call`: a successful response, a `RateLimitError`, or a
(generic, transient) `APIError`. -/
inductive CallResult (α : Type) where
  | success : α → CallResult α
  | rateLimit : CallResult α
  | apiError : CallResult α
  deriving DecidableEq

/-- Whether an attempt outcome is a success. -/
def CallResult.isSuccess {α : Type} : CallResult α → Bool
  | .success _ => true
  | _ => false

/-- The loop body of `safe_openai_call`, from attempt index `i` with
`fuel` loop iterations remaining.  `fn j` is the outcome of the `j`-th
attempt of the wrapped call.  Returns the sequence of back-off waits (in
seconds, in order) together with the final outcome; `Except.error ()`
models the `RuntimeError` raised after the `for` loop falls through. -/
def safeCallFrom {α : Type} (fn : ℕ → CallResult α) : ℕ → ℕ → List ℕ × Except Unit α
  | 0, _ => ([], Except.error ())
  | fuel + 1, i =>
    match fn i with
    | .success v => ([], Except.ok v)
    | .rateLimit =>
        let r := safeCallFrom fn fuel (i + 1)
        (2 ^ i :: r.1, r.2)
    | .apiError =>
        let r := safeCallFrom fn fuel (i + 1)
        (5 :: r.1, r.2)

/-- `safe_openai_call(fn, retries)`: up to `retries` attempts starting at
attempt 0; a `RateLimitError` on attempt `i` waits `2 ** i` seconds, an
`APIError` waits 5 seconds, and falling out of the loop raises. -/
def safe_openai_call {α : Type} (fn : ℕ → CallResult α) (retries : ℕ) :
    List ℕ × Except Unit α :=
  safeCallFrom fn retries 0

/-- The wait the source performs after the failed attempt `i`:
`2 ** i` seconds for a rate limit, 5 seconds otherwise. -/
def waitOf {α : Type} (fn : ℕ → CallResult α) (i : ℕ) : ℕ :=
  match fn i with
  | .rateLimit => 2 ^ i
  | _ => 5

end VlmClient

/-! ## run_video_diff.py -/

namespace RunVideoDiff

/-- `BASELINE_PROMPT`. -/
def BASELINE_PROMPT : String := "Describe this frame."

/-- `DIFF_PROMPT`. -/
def DIFF_PROMPT : String :=
  "You are given two consecutive frames from a video. " ++
  "Describe only what changed in the current frame compared to the previous one. " ++
  "Focus on the main object and its motion. " ++
  "Do not repeat static background, lighting, or objects that stay the same."

/-- `diff_texts[0]`, the fixed sentinel for the first frame. -/
def SENTINEL : String := "Initial frame. No previous frame to compare."

/-- The filesystem as this module observes it: a map from file path to
file content.  (`os.makedirs` creates directories only and touches no
file, so directories are immaterial here.) -/
abbrev FS := List (String × String)

/-- `os.path.exists(path)` (for a file path). -/
def fsExists (fs : FS) (path : String) : Bool :=
  fs.any (fun p => p.1 == path)

/-- Content of the file at `path`, if present. -/
def fsGet (fs : FS) (path : String) : Option String :=
  (fs.find? (fun p => p.1 == path)).map Prod.snd

/-- Create or overwrite the file at `path` with `content`. -/
def fsSet : FS → String → String → FS
  | [], path, c => [(path, c)]
  | (p, c') :: rest, path, c =>
      if p == path then (p, c) :: rest else (p, c') :: fsSet rest path c

/-- One entry of `list_all_videos_from_frames`. -/
structure VideoMeta where
  cls : String
  video_id : String
  frame_dir : String

/-- `os.path.join(RESULTS_ROOT, cls)` followed by `f"{vid}.json"`. -/
def out_path (m : VideoMeta) : String :=
  "results/" ++ m.cls ++ "/" ++ m.video_id ++ ".json"

/-- The external vision-language service behind `VLMClient`, abstracted
to the text it returns for a single-frame or a paired-frame request. -/
structure VlmOracle (Img : Type) where
  describe_single : Img → String → String
  describe_pair : Img → Img → String → String

/-- One model-service call issued during processing. -/
inductive VlmCall (Img : Type) where
  | single : Img → String → VlmCall Img
  | pair : Img → Img → String → VlmCall Img

/-- The `result` dict built at lines 137–151 of `run_video_diff.py`,
field for field, in source order. -/
def buildResult (vid cls : String) (num_frames : ℕ) (frame_dir : String)
    (frame_files baseline_texts diff_texts : List String)
    (baseline_tokens diff_tokens : ℕ)
    (avg_red_base avg_red_diff : ℚ) (red_list_base red_list_diff : List ℚ) : Obj :=
  [("video_id", JVal.jstr vid),
   ("class", JVal.jstr cls),
   ("num_frames", JVal.jnum num_frames),
   ("frame_dir", JVal.jstr frame_dir),
   ("frame_files", JVal.jarr (frame_files.map JVal.jstr)),
   ("baseline_texts", JVal.jarr (baseline_texts.map JVal.jstr)),
   ("diff_texts", JVal.jarr (diff_texts.map JVal.jstr)),
   ("baseline_tokens", JVal.jnum baseline_tokens),
   ("diff_tokens", JVal.jnum diff_tokens),
   ("lexical_redundancy_baseline_avg", JVal.jnum avg_red_base),
   ("lexical_redundancy_diff_avg", JVal.jnum avg_red_diff),
   ("lexical_redundancy_baseline_all", JVal.jarr (red_list_base.map JVal.jnum)),
   ("lexical_redundancy_diff_all", JVal.jarr (red_list_diff.map JVal.jnum))]

/-- `process_one_video`.  External collaborators are parameters: the VLM
oracle, the frame loader (`load_images_in_order`), the GPT-2 token
counter (`count_tokens`), and the JSON serializer (`json.dump`).  Returns
the filesystem after the run together with the list of model-service
calls made, in order. -/
def process_one_video {Img : Type} (oracle : VlmOracle Img)
    (loadFrames : String → List Img × List String)
    (countTokens : String → ℕ) (dump : Obj → String)
    (fs : FS) (meta : VideoMeta) (max_frames : ℕ) : FS × List (VlmCall Img) :=
  let out := out_path meta
  if fsExists fs out then (fs, [])
  else
    let loaded := loadFrames meta.frame_dir
    if loaded.1.length = 0 then (fs, [])
    else
      let images :=
        if loaded.1.length > max_frames then loaded.1.take max_frames else loaded.1
      let frame_files :=
        if loaded.1.length > max_frames then loaded.2.take max_frames else loaded.2
      let baseline_texts := images.map (fun img => oracle.describe_single img BASELINE_PROMPT)
      let diff_texts := SENTINEL ::
        (images.zip images.tail).map (fun p => oracle.describe_pair p.1 p.2 DIFF_PROMPT)
      let baseline_tokens := countTokens (String.intercalate "\n" baseline_texts)
      let diff_tokens := countTokens (String.intercalate "\n" diff_texts)
      let rb := Metrics.compute_lexical_redundancy baseline_texts
      let rd := Metrics.compute_lexical_redundancy diff_texts
      let result := buildResult meta.video_id meta.cls images.length meta.frame_dir
        frame_files baseline_texts diff_texts baseline_tokens diff_tokens
        rb.1 rd.1 rb.2 rd.2
      (fsSet fs out (dump result),
       images.map (fun img => VlmCall.single img BASELINE_PROMPT) ++
         (images.zip images.tail).map (fun p => VlmCall.pair p.1 p.2 DIFF_PROMPT))

/-- The persist step (lines 153–154): `open(out_path, "w")` creates or
truncates the file, then `json.dump` streams the serialized record into
it.  These are the filesystem states the write passes through: after the
`open`, the file holds each successive prefix of the serialized record.
An interrupted run stops in one of these states; only the last one holds
the complete record. -/
def directWriteStates (fs : FS) (path content : String) : List FS :=
  (List.range (content.length + 1)).map
    (fun k => fsSet fs path (String.mk (content.data.take k)))

end RunVideoDiff

/-! ## update_metrics.py -/

namespace UpdateMetrics

/-- `DROP_KEYS`: obsolete alignment-related fields removed from records. -/
def DROP_KEYS : List String :=
  ["visual_changes",
   "text_changes_baseline",
   "text_changes_diff",
   "motion_text_alignment_baseline",
   "motion_text_alignment_diff"]

/-- `recompute_tokens`: token count of the texts joined by newlines,
using the external GPT-2 tokenizer `encode`. -/
def recompute_tokens (encode : String → List ℕ) (texts : List String) : ℕ :=
  (encode (String.intercalate "\n" texts)).length

/-- Read a JSON string-array field as a list of strings.  Records written
by this pipeline store their text sequences as arrays of strings; other
shapes do not occur in its records. -/
def asStrList : JVal → List String
  | JVal.jarr xs => xs.filterMap (fun v => match v with | JVal.jstr s => some s | _ => none)
  | _ => []

/-- `data.get("baseline_texts", [])` (and the diff analogue). -/
def getTexts (data : Obj) (k : String) : List String :=
  asStrList (dictGetD data k (JVal.jarr []))

/-- `data.get("class", "__default__")`.  Records written by this pipeline
store the class as a string. -/
def getCls (data : Obj) : String :=
  match dictGet data "class" with
  | some (JVal.jstr s) => s
  | _ => "__default__"

/-- `update_one_json` as a transformation of the persisted record: when
either text list is empty the file is skipped (left unchanged);
otherwise the token counts, the four lexical-redundancy fields and the
four information-density fields are assigned, and the `DROP_KEYS` are
popped, before the record is written back. -/
def update_one_json (encode : String → List ℕ) (data : Obj) : Obj :=
  let baseline_texts := getTexts data "baseline_texts"
  let diff_texts := getTexts data "diff_texts"
  let cls := getCls data
  if baseline_texts = [] ∨ diff_texts = [] then data
  else
    let rb := Metrics.compute_lexical_redundancy baseline_texts
    let rd := Metrics.compute_lexical_redundancy diff_texts
    let info_base := Metrics.average_information_density_class_aware baseline_texts cls
    let info_diff := Metrics.average_information_density_class_aware diff_texts cls
    let info_base_pf := baseline_texts.map
      (fun t => Metrics.information_density_class_aware t cls)
    let info_diff_pf := diff_texts.map
      (fun t => Metrics.information_density_class_aware t cls)
    let d := dictSet data "baseline_tokens" (JVal.jnum (recompute_tokens encode baseline_texts))
    let d := dictSet d "diff_tokens" (JVal.jnum (recompute_tokens encode diff_texts))
    let d := dictSet d "lexical_redundancy_baseline_avg" (JVal.jnum rb.1)
    let d := dictSet d "lexical_redundancy_diff_avg" (JVal.jnum rd.1)
    let d := dictSet d "lexical_redundancy_baseline_all" (JVal.jarr (rb.2.map JVal.jnum))
    let d := dictSet d "lexical_redundancy_diff_all" (JVal.jarr (rd.2.map JVal.jnum))
    let d := dictSet d "info_density_baseline" (JVal.jnum info_base)
    let d := dictSet d "info_density_diff" (JVal.jnum info_diff)
    let d := dictSet d "info_density_baseline_per_frame"
      (JVal.jarr (info_base_pf.map JVal.jnum))
    let d := dictSet d "info_density_diff_per_frame"
      (JVal.jarr (info_diff_pf.map JVal.jnum))
    DROP_KEYS.foldl (fun d k => dictErase d k) d

/-- The ten keys `update_one_json` assigns. -/
def UPDATED_KEYS : List String :=
  ["baseline_tokens", "diff_tokens",
   "lexical_redundancy_baseline_avg", "lexical_redundancy_diff_avg",
   "lexical_redundancy_baseline_all", "lexical_redundancy_diff_all",
   "info_density_baseline", "info_density_diff",
   "info_density_baseline_per_frame", "info_density_diff_per_frame"]

end UpdateMetrics

/-! ## analyze_results.py -/

namespace AnalyzeResults

/-- `fname.endswith(".json")`, as a suffix test on the character list. -/
def endsWithJson (fname : String) : Bool :=
  ".json".data.isSuffixOf fname.data

/-- The per-record dict built by `collect_results` (lines 34–42): each
metric field via `data.get` with its numeric default, `video_id` via
`data.get` defaulting to `None`. -/
structure VRec where
  video_id : JVal
  baseline_tokens : JVal
  diff_tokens : JVal
  lex_red_base : JVal
  lex_red_diff : JVal
  info_base : JVal
  info_diff : JVal

/-- The record extraction of `collect_results` for one parsed file. -/
def extractRec (data : Obj) : VRec :=
  { video_id := (dictGet data "video_id").getD JVal.jnull
    baseline_tokens := dictGetD data "baseline_tokens" (JVal.jnum 0)
    diff_tokens := dictGetD data "diff_tokens" (JVal.jnum 0)
    lex_red_base := dictGetD data "lexical_redundancy_baseline_avg" (JVal.jnum 0)
    lex_red_diff := dictGetD data "lexical_redundancy_diff_avg" (JVal.jnum 0)
    info_base := dictGetD data "info_density_baseline" (JVal.jnum 0)
    info_diff := dictGetD data "info_density_diff" (JVal.jnum 0) }

/-- `collect_results` over the walked files, each given as
`(filename, parse outcome)` where `none` models a file whose content
`json.load` fails to parse.  Non-`.json` files are skipped; a parse
failure is an uncaught exception, aborting the whole walk
(`Except.error` carries the offending filename).  On success, the
class-keyed records are returned in walk order. -/
def collect_results : List (String × Option Obj) → Except String (List (JVal × VRec))
  | [] => Except.ok []
  | (fname, content) :: rest =>
    if endsWithJson fname then
      match content with
      | none => Except.error fname
      | some data =>
          match collect_results rest with
          | Except.error e => Except.error e
          | Except.ok recs =>
              Except.ok ((dictGetD data "class" (JVal.jstr "UNKNOWN"), extractRec data) :: recs)
    else collect_results rest

/-- `avg`: arithmetic mean, `0.0` for an empty list. -/
def avg (lst : List ℚ) : ℚ :=
  if lst = [] then 0 else lst.sum / (lst.length : ℚ)

/-- Lines 71–77 of `analyze`: the relative token reduction of one class
group, from its per-video baseline and diff token counts. -/
def token_reduction (base_tokens diff_tokens : List ℚ) : ℚ :=
  let avg_tok_base := avg base_tokens
  let avg_tok_diff := avg diff_tokens
  if avg_tok_base > 0 then 1 - avg_tok_diff / avg_tok_base else 0

end AnalyzeResults

/-! ## Helper lemmas for the metrics engine -/

namespace Metrics

lemma sum_le_length (l : List ℚ) (h : ∀ x ∈ l, x ≤ 1) : l.sum ≤ (l.length : ℚ) := by
  induction l with
  | nil => simp
  | cons a t ih =>
      simp only [List.sum_cons, List.length_cons]
      push_cast
      have ha := h a (by simp)
      have ht := ih (fun x hx => h x (by simp [hx]))
      linarith

lemma avg_unit (l : List ℚ) (h : ∀ x ∈ l, 0 ≤ x ∧ x ≤ 1) :
    0 ≤ l.sum / (l.length : ℚ) ∧ l.sum / (l.length : ℚ) ≤ 1 := by
  refine ⟨div_nonneg (List.sum_nonneg fun x hx => (h x hx).1) (by positivity), ?_⟩
  rcases eq_or_ne l [] with rfl | hne
  · simp
  · have hlen : 0 < (l.length : ℚ) := by
      have : 0 < l.length := List.length_pos.mpr hne
      exact_mod_cast this
    rw [div_le_one hlen]
    exact sum_le_length l fun x hx => (h x hx).2

lemma jaccard_mem (t1 t2 : String) :
    0 ≤ jaccard_overlap t1 t2 ∧ jaccard_overlap t1 t2 ≤ 1 := by
  simp only [jaccard_overlap]
  set w1 := (tokenize_for_overlap t1).toFinset with hw1
  set w2 := (tokenize_for_overlap t2).toFinset with hw2
  split
  · norm_num
  · rename_i hcond
    have hsub : (w1 ∩ w2).card ≤ (w1 ∪ w2).card :=
      Finset.card_le_card Finset.inter_subset_union
    have hpos : 0 < (w1 ∪ w2).card := by
      rcases Finset.eq_empty_or_nonempty (w1 ∪ w2) with he | hne
      · exact absurd (Finset.union_eq_empty.mp he) hcond
      · exact Finset.card_pos.mpr hne
    refine ⟨by positivity, ?_⟩
    rw [div_le_one (by exact_mod_cast hpos)]
    exact_mod_cast hsub

lemma density_mem (text cls : String) :
    0 ≤ information_density_class_aware text cls ∧
      information_density_class_aware text cls ≤ 1 := by
  by_cases h : simple_tokenize text = []
  · simp [information_density_class_aware, h]
  · have hlen : 0 < ((simple_tokenize text).length : ℚ) := by
      have : 0 < (simple_tokenize text).length := List.length_pos.mpr h
      exact_mod_cast this
    simp only [information_density_class_aware, h, if_false]
    refine ⟨by positivity, ?_⟩
    rw [div_le_one hlen]
    exact_mod_cast List.length_filter_le _ _

lemma redundancy_snd_mem (texts : List String) :
    ∀ r ∈ (compute_lexical_redundancy texts).2, 0 ≤ r ∧ r ≤ 1 := by
  intro r hr
  unfold compute_lexical_redundancy at hr
  split at hr
  · simp at hr
  · simp only [List.mem_map] at hr
    obtain ⟨p, _, rfl⟩ := hr
    exact jaccard_mem p.1 p.2

lemma redundancy_fst_mem (texts : List String) :
    0 ≤ (compute_lexical_redundancy texts).1 ∧ (compute_lexical_redundancy texts).1 ≤ 1 := by
  unfold compute_lexical_redundancy
  split
  · norm_num
  · dsimp only
    apply avg_unit
    intro r hr
    simp only [List.mem_map] at hr
    obtain ⟨p, _, rfl⟩ := hr
    exact jaccard_mem p.1 p.2

lemma avg_density_mem (texts : List String) (cls : String) :
    0 ≤ average_information_density_class_aware texts cls ∧
      average_information_density_class_aware texts cls ≤ 1 := by
  unfold average_information_density_class_aware
  split
  · norm_num
  · have hmap : ∀ x ∈ texts.map (fun t => information_density_class_aware t cls),
        0 ≤ x ∧ x ≤ 1 := by
      intro x hx
      simp only [List.mem_map] at hx
      obtain ⟨t, _, rfl⟩ := hx
      exact density_mem t cls
    have := avg_unit _ hmap
    simpa using this

end Metrics

/-! ## Helper lemmas for the dict model -/

lemma dictGet_nil (k : String) : dictGet [] k = none := rfl

lemma dictGet_cons (p : String × JVal) (d : Obj) (k : String) :
    dictGet (p :: d) k = if p.1 = k then some p.2 else dictGet d k := by
  by_cases h : p.1 = k
  · simp [dictGet, List.find?_cons_of_pos, h]
  · rw [dictGet, List.find?_cons_of_neg _ (by simpa using h)]
    simp [dictGet, h]

lemma dictSet_cons_pos (p : String × JVal) (rest : Obj) (k : String) (v : JVal)
    (h : p.1 = k) : dictSet (p :: rest) k v = (p.1, v) :: rest := by
  simp [dictSet, h]

lemma dictSet_cons_neg (p : String × JVal) (rest : Obj) (k : String) (v : JVal)
    (h : ¬ p.1 = k) : dictSet (p :: rest) k v = p :: dictSet rest k v := by
  simp [dictSet, h]

lemma dictGet_dictSet (d : Obj) (k k' : String) (v : JVal) :
    dictGet (dictSet d k v) k' = if k' = k then some v else dictGet d k' := by
  induction d with
  | nil =>
      by_cases h : k' = k
      · subst h; simp [dictSet, dictGet_cons]
      · simp [dictSet, dictGet_cons, dictGet_nil, h, Ne.symm h]
  | cons p rest ih =>
      by_cases hp : p.1 = k
      · rw [dictSet_cons_pos p rest k v hp, dictGet_cons, dictGet_cons]
        by_cases h : k' = k
        · simp [h, hp]
        · simp [h, hp, show ¬ k = k' from fun hh => h hh.symm]
      · rw [dictSet_cons_neg p rest k v hp, dictGet_cons, ih, dictGet_cons]
        by_cases hq : p.1 = k'
        · simp [hq, show ¬ k' = k from hq ▸ fun hh => hp hh]
        · simp [hq]

lemma dictGet_dictErase (d : Obj) (k k' : String) :
    dictGet (dictErase d k) k' = if k' = k then none else dictGet d k' := by
  induction d with
  | nil => simp [dictErase, dictGet_nil]
  | cons p rest ih =>
      by_cases hp : p.1 = k
      · have he : dictErase (p :: rest) k = dictErase rest k := by
          simp [dictErase, List.filter_cons, hp]
        rw [he, ih]
        by_cases h : k' = k
        · simp [h]
        · simp [h, dictGet_cons, show ¬ p.1 = k' from hp ▸ fun hh => h hh.symm]
      · have he : dictErase (p :: rest) k = p :: dictErase rest k := by
          simp [dictErase, List.filter_cons, hp]
        rw [he, dictGet_cons, ih, dictGet_cons]
        by_cases hq : p.1 = k'
        · simp [hq, show ¬ k' = k from hq ▸ fun hh => hp hh]
        · simp [hq]

lemma dictGet_foldl_erase (ks : List String) (d : Obj) (k : String) :
    dictGet (ks.foldl (fun d k => dictErase d k) d) k =
      if k ∈ ks then none else dictGet d k := by
  induction ks generalizing d with
  | nil => simp
  | cons a t ih =>
      simp only [List.foldl_cons, ih, dictGet_dictErase]
      by_cases h1 : k ∈ t <;> by_cases h2 : k = a <;> simp [h1, h2]

/-! ## Helper lemmas for the retry loop -/

namespace VlmClient

lemma safeCallFrom_all_fail {α : Type} (fn : ℕ → CallResult α) :
    ∀ (fuel i : ℕ), (∀ j, i ≤ j → j < i + fuel → (fn j).isSuccess = false) →
      safeCallFrom fn fuel i = ((List.range' i fuel).map (waitOf fn), Except.error ()) := by
  intro fuel
  induction fuel with
  | zero => intro i _; simp [safeCallFrom, List.range']
  | succ f ih =>
      intro i h
      have hi : (fn i).isSuccess = false := h i le_rfl (by omega)
      simp only [safeCallFrom]
      cases hfn : fn i with
      | success v => rw [hfn] at hi; simp [CallResult.isSuccess] at hi
      | rateLimit =>
          rw [ih (i + 1) (fun j hj1 hj2 => h j (by omega) (by omega))]
          simp [List.range', waitOf, hfn]
      | apiError =>
          rw [ih (i + 1) (fun j hj1 hj2 => h j (by omega) (by omega))]
          simp [List.range', waitOf, hfn]

lemma safeCallFrom_success_at {α : Type} (fn : ℕ → CallResult α) :
    ∀ (k fuel i : ℕ) (v : α), k < fuel →
      (∀ j, i ≤ j → j < i + k → (fn j).isSuccess = false) →
      fn (i + k) = CallResult.success v →
      safeCallFrom fn fuel i = ((List.range' i k).map (waitOf fn), Except.ok v) := by
  intro k
  induction k with
  | zero =>
      intro fuel i v hk hfail hsucc
      cases fuel with
      | zero => omega
      | succ f =>
          simp only [safeCallFrom]
          rw [show i + 0 = i from rfl] at hsucc
          simp [hsucc, List.range']
  | succ m ih =>
      intro fuel i v hk hfail hsucc
      cases fuel with
      | zero => omega
      | succ f =>
          have hi : (fn i).isSuccess = false := hfail i le_rfl (by omega)
          simp only [safeCallFrom]
          cases hfn : fn i with
          | success w => rw [hfn] at hi; simp [CallResult.isSuccess] at hi
          | rateLimit =>
              rw [ih f (i + 1) v (by omega)
                (fun j h1 h2 => hfail j (by omega) (by omega))
                (by rw [show i + 1 + m = i + (m + 1) from by omega]; exact hsucc)]
              simp [List.range', waitOf, hfn]
          | apiError =>
              rw [ih f (i + 1) v (by omega)
                (fun j h1 h2 => hfail j (by omega) (by omega))
                (by rw [show i + 1 + m = i + (m + 1) from by omega]; exact hsucc)]
              simp [List.range', waitOf, hfn]

end VlmClient

/-! ## Helper lemmas for the aggregator -/

namespace AnalyzeResults

lemma avg_nonneg_of_nonneg (l : List ℚ) (h : ∀ x ∈ l, 0 ≤ x) : 0 ≤ avg l := by
  unfold avg
  split
  · exact le_refl 0
  · exact div_nonneg (List.sum_nonneg h) (by positivity)

lemma collect_results_of_corrupt_mem (files : List (String × Option Obj)) (fname : String)
    (hjson : endsWithJson fname = true)
    (hmem : (fname, (none : Option Obj)) ∈ files) :
    ∃ e, collect_results files = Except.error e := by
  induction files with
  | nil => simp at hmem
  | cons g rest ih =>
      rcases List.mem_cons.mp hmem with hg | hrest
      · subst hg
        exact ⟨fname, by simp [collect_results, hjson]⟩
      · obtain ⟨e, he⟩ := ih hrest
        by_cases hj : endsWithJson g.1
        · cases hc : g.2 with
          | none => exact ⟨g.1, by rw [show g = (g.1, g.2) from rfl, hc]; simp [collect_results, hj]⟩
          | some data =>
              refine ⟨e, ?_⟩
              rw [show g = (g.1, g.2) from rfl, hc]
              simp [collect_results, hj, he]
        · refine ⟨e, ?_⟩
          rw [show g = (g.1, g.2) from rfl]
          simp [collect_results, hj, he]

end AnalyzeResults

namespace Claims

open Metrics

/-- Claim C5, counterexample: `"!!!"` is a non-empty text identical to itself,
yet its word-token set is empty, so `jaccard_overlap` returns `0.0`
rather than `1.0`. -/
theorem jaccard_identical_nonempty_cex :
    "!!!" ≠ "" ∧ jaccard_overlap "!!!" "!!!" = 0 := by
  constructor
  · decide
  · have h : tokenize_for_overlap "!!!" = [] := by decide
    rw [jaccard_overlap]
    simp [h]

/-- Claim C5, amended: if two texts are identical and tokenize to at least one
word token, `jaccard_overlap` returns `1.0`; if their word-token sets are
disjoint (in particular when either part has no tokens), it returns
`0.0`. -/
theorem jaccard_identical_and_disjoint (t1 t2 : String) :
    (t1 = t2 → tokenize_for_overlap t1 ≠ [] → jaccard_overlap t1 t2 = 1) ∧
    ((tokenize_for_overlap t1).toFinset ∩ (tokenize_for_overlap t2).toFinset = ∅ →
      jaccard_overlap t1 t2 = 0) := by
  constructor
  · rintro rfl hne
    have hfin : (tokenize_for_overlap t1).toFinset ≠ ∅ := by
      simpa [List.toFinset_eq_empty_iff] using hne
    have hpos : 0 < ((tokenize_for_overlap t1).toFinset.card : ℚ) := by
      have : 0 < (tokenize_for_overlap t1).toFinset.card :=
        Finset.card_pos.mpr (Finset.nonempty_iff_ne_empty.mpr hfin)
      exact_mod_cast this
    rw [jaccard_overlap]
    simp only [Finset.inter_self, Finset.union_self]
    rw [if_neg (by simp [hfin])]
    exact div_self (ne_of_gt hpos)
  · intro hdisj
    rw [jaccard_overlap]
    split
    · rfl
    · rw [hdisj]
      simp

/-- Claim C5, witness: evaluation at concrete inputs. -/
theorem jaccard_identical_and_disjoint_witness :
    jaccard_overlap "hello" "hello" = 1 ∧ jaccard_overlap "ab" "cd" = 0 :=
  ⟨(jaccard_identical_and_disjoint "hello" "hello").1 rfl (by decide),
   (jaccard_identical_and_disjoint "ab" "cd").2 (by decide)⟩

/-- Claim C6: every Jaccard overlap lies in `[0,1]`; every class-aware
information density lies in `[0,1]` and is `0.0` for a text with no
tokens; hence every value stored in a record — the redundancy average,
each entry of the per-pair redundancy list, and the density average —
lies in `[0,1]`. -/
theorem metrics_values_unit_interval (t1 t2 text cls : String) (texts : List String) :
    (0 ≤ jaccard_overlap t1 t2 ∧ jaccard_overlap t1 t2 ≤ 1) ∧
    (0 ≤ information_density_class_aware text cls ∧
      information_density_class_aware text cls ≤ 1) ∧
    (simple_tokenize text = [] → information_density_class_aware text cls = 0) ∧
    (0 ≤ (compute_lexical_redundancy texts).1 ∧ (compute_lexical_redundancy texts).1 ≤ 1) ∧
    (∀ r ∈ (compute_lexical_redundancy texts).2, 0 ≤ r ∧ r ≤ 1) ∧
    (0 ≤ average_information_density_class_aware texts cls ∧
      average_information_density_class_aware texts cls ≤ 1) :=
  ⟨jaccard_mem t1 t2, density_mem text cls,
   fun h => by simp [information_density_class_aware, h],
   redundancy_fst_mem texts, redundancy_snd_mem texts, avg_density_mem texts cls⟩

/-- Claim C6, witness: the empty-text clause discharged at a concrete input. -/
theorem metrics_values_unit_interval_witness :
    information_density_class_aware "" "folding something" = 0 :=
  (metrics_values_unit_interval "a" "b" "" "folding something" []).2.2.1 (by decide)

/-- Claim C7: for any text and any class with a custom vocabulary entry, the
class-aware information density is at least the density computed from the
default vocabulary alone, since the class set is unioned with the default
set. -/
theorem density_class_ge_default (text cls : String)
    (h : (classVocabGet (normalize_class_name cls)).isSome = true) :
    information_density_default text ≤ information_density_class_aware text cls := by
  clear h
  by_cases htok : simple_tokenize text = []
  · simp [information_density_default, information_density_class_aware, htok]
  · have hlen : 0 < ((simple_tokenize text).length : ℚ) := by
      have : 0 < (simple_tokenize text).length := List.length_pos.mpr htok
      exact_mod_cast this
    simp only [information_density_default, information_density_class_aware, htok, if_false]
    rw [div_le_div_iff_of_pos_right hlen]
    have hsub : List.Sublist
        ((simple_tokenize text).filter (fun t => defaultVocab.contains t))
        ((simple_tokenize text).filter
          (fun t => (defaultVocab ++
            ((classVocabGet (normalize_class_name cls)).getD [])).contains t)) := by
      apply List.monotone_filter_right
      intro a ha
      have ha' : a ∈ defaultVocab := by
        simpa [List.contains, List.elem_eq_mem] using ha
      simp [List.contains, List.elem_eq_mem, List.mem_append, ha']
    exact_mod_cast hsub.length_le

/-- Claim C7, witness: a class with a custom vocabulary at a concrete text. -/
theorem density_class_ge_default_witness :
    (classVocabGet (normalize_class_name "folding something")).isSome = true ∧
    information_density_default "she folds the paper" ≤
      information_density_class_aware "she folds the paper" "folding something" :=
  ⟨by decide, density_class_ge_default "she folds the paper" "folding something" (by decide)⟩

/-- Claim C4: through `safe_openai_call` and its budget of 5 attempts: a
rate-limit failure on attempt `i` waits `2 ^ i` seconds and any other
transient API error waits 5 seconds before the retry (`waitOf`), the two
failure kinds share the one budget, exhausting it raises an error to the
caller rather than returning silently, and a success on attempt `i` after
`i` failures returns the response after exactly those `i` waits. -/
theorem safe_openai_call_retry_policy {α : Type} (fn : ℕ → VlmClient.CallResult α) :
    ((∀ j, j < 5 → (fn j).isSuccess = false) →
      VlmClient.safe_openai_call fn 5 =
        ((List.range 5).map (VlmClient.waitOf fn), Except.error ())) ∧
    (∀ i v, i < 5 → (∀ j, j < i → (fn j).isSuccess = false) →
      fn i = VlmClient.CallResult.success v →
      VlmClient.safe_openai_call fn 5 =
        ((List.range i).map (VlmClient.waitOf fn), Except.ok v)) := by
  constructor
  · intro h
    rw [VlmClient.safe_openai_call,
      VlmClient.safeCallFrom_all_fail fn 5 0 (fun j _ h2 => h j (by omega)),
      List.range_eq_range']
  · intro i v hi hfail hsucc
    rw [VlmClient.safe_openai_call,
      VlmClient.safeCallFrom_success_at fn i 5 0 v hi
        (fun j _ h2 => hfail j (by omega)) (by simpa using hsucc),
      List.range_eq_range']

/-- Claim C4, witness: a run in which all five attempts fail (alternating
rate limits and generic API errors, sharing the budget) raises after the
waits `[2^0, 5, 2^2, 5, 2^4]`, and a run that succeeds on attempt 2 after
two rate limits returns after the waits `[2^0, 2^1]`. -/
theorem safe_openai_call_retry_policy_witness :
    VlmClient.safe_openai_call
        (fun i => if i % 2 = 0 then VlmClient.CallResult.rateLimit
          else (VlmClient.CallResult.apiError : VlmClient.CallResult Unit)) 5 =
      ([1, 5, 4, 5, 16], Except.error ()) ∧
    VlmClient.safe_openai_call
        (fun i => if i < 2 then (VlmClient.CallResult.rateLimit : VlmClient.CallResult Unit)
          else VlmClient.CallResult.success ()) 5 =
      ([1, 2], Except.ok ()) := by
  constructor
  · rw [(safe_openai_call_retry_policy _).1 (by decide)]
    rfl
  · rw [(safe_openai_call_retry_policy _).2 2 () (by decide) (by decide) (by decide)]
    rfl

/-- Claim C8: the relative token reduction of a class group is 0 whenever
the average baseline token count is 0 (whatever the diff tokens), and
equals `1 - avg_diff_tokens / avg_baseline_tokens` otherwise; token
counts are non-negative. -/
theorem token_reduction_spec (base_tokens diff_tokens : List ℚ)
    (hnn : ∀ x ∈ base_tokens, 0 ≤ x) :
    (AnalyzeResults.avg base_tokens = 0 →
      AnalyzeResults.token_reduction base_tokens diff_tokens = 0) ∧
    (AnalyzeResults.avg base_tokens ≠ 0 →
      AnalyzeResults.token_reduction base_tokens diff_tokens =
        1 - AnalyzeResults.avg diff_tokens / AnalyzeResults.avg base_tokens) := by
  have havg : 0 ≤ AnalyzeResults.avg base_tokens :=
    AnalyzeResults.avg_nonneg_of_nonneg base_tokens hnn
  constructor
  · intro h0
    simp only [AnalyzeResults.token_reduction, h0]
    norm_num
  · intro hne
    have hpos : 0 < AnalyzeResults.avg base_tokens := lt_of_le_of_ne havg (Ne.symm hne)
    simp only [AnalyzeResults.token_reduction, if_pos hpos]

/-- Claim C8, witness: the spec's worked example — baseline tokens
`[100, 200]`, diff tokens `[40, 60]` give reduction `1 - 50/150 = 2/3`. -/
theorem token_reduction_spec_witness :
    AnalyzeResults.token_reduction [(100 : ℚ), 200] [40, 60] = 2 / 3 := by
  have havg : AnalyzeResults.avg [(100 : ℚ), 200] ≠ 0 := by
    simp [AnalyzeResults.avg]
    norm_num
  rw [(token_reduction_spec [(100 : ℚ), 200] [40, 60] (by norm_num)).2 havg]
  simp [AnalyzeResults.avg]
  norm_num

/-- Claim C3, counterexample: a single record file whose content is not
valid JSON makes `collect_results` raise (the `json.load` exception
propagates out of the walk), aborting the whole aggregation instead of
degrading only that record. -/
theorem collect_corrupt_aborts_cex :
    AnalyzeResults.collect_results [("results/folding/folding_001.json", (none : Option Obj))] =
      Except.error "results/folding/folding_001.json" := rfl

/-- Claim C3, amended: a record that parses but is missing any numeric
metric field contributes the default 0 (or 0.0) for that field; however a
corrupt or partially-written record file — one whose content fails JSON
parsing — raises and aborts the whole aggregation run. -/
theorem collect_defaults_but_corrupt_aborts (d : Obj)
    (files : List (String × Option Obj)) (fname : String)
    (h1 : dictGet d "baseline_tokens" = none)
    (h2 : dictGet d "diff_tokens" = none)
    (h3 : dictGet d "lexical_redundancy_baseline_avg" = none)
    (h4 : dictGet d "lexical_redundancy_diff_avg" = none)
    (h5 : dictGet d "info_density_baseline" = none)
    (h6 : dictGet d "info_density_diff" = none)
    (hjson : AnalyzeResults.endsWithJson fname = true)
    (hmem : (fname, (none : Option Obj)) ∈ files) :
    ((AnalyzeResults.extractRec d).baseline_tokens = JVal.jnum 0 ∧
     (AnalyzeResults.extractRec d).diff_tokens = JVal.jnum 0 ∧
     (AnalyzeResults.extractRec d).lex_red_base = JVal.jnum 0 ∧
     (AnalyzeResults.extractRec d).lex_red_diff = JVal.jnum 0 ∧
     (AnalyzeResults.extractRec d).info_base = JVal.jnum 0 ∧
     (AnalyzeResults.extractRec d).info_diff = JVal.jnum 0) ∧
    ∃ e, AnalyzeResults.collect_results files = Except.error e := by
  refine ⟨⟨?_, ?_, ?_, ?_, ?_, ?_⟩,
    AnalyzeResults.collect_results_of_corrupt_mem files fname hjson hmem⟩
  all_goals simp [AnalyzeResults.extractRec, dictGetD, h1, h2, h3, h4, h5, h6]

/-- Claim C3, witness: a parsed record holding only a class field
contributes token count 0, and a walk containing one unparseable file
errors out. -/
theorem collect_defaults_but_corrupt_aborts_witness :
    (AnalyzeResults.extractRec [("class", JVal.jstr "folding")]).baseline_tokens =
      JVal.jnum 0 ∧
    ∃ e, AnalyzeResults.collect_results
      [("results/folding/v1.json", (none : Option Obj))] = Except.error e := by
  have h := collect_defaults_but_corrupt_aborts [("class", JVal.jstr "folding")]
    [("results/folding/v1.json", (none : Option Obj))] "results/folding/v1.json"
    rfl rfl rfl rfl rfl rfl (by decide) (List.mem_singleton.mpr rfl)
  exact ⟨h.1.1, h.2⟩

/-- Claim C9: re-running `process_one_video` on a video whose result file
already exists at its resolved output path performs zero model-service
calls and returns the filesystem unchanged — in particular the existing
result file is byte-for-byte untouched. -/
theorem skip_existing_zero_calls {Img : Type} (oracle : RunVideoDiff.VlmOracle Img)
    (loadFrames : String → List Img × List String) (countTokens : String → ℕ)
    (dump : Obj → String) (fs : RunVideoDiff.FS) (meta : RunVideoDiff.VideoMeta)
    (max_frames : ℕ)
    (h : RunVideoDiff.fsExists fs (RunVideoDiff.out_path meta) = true) :
    RunVideoDiff.process_one_video oracle loadFrames countTokens dump fs meta max_frames
      = (fs, []) := by
  simp [RunVideoDiff.process_one_video, h]

/-- Claim C9, witness: a concrete run against an existing result file. -/
theorem skip_existing_zero_calls_witness :
    RunVideoDiff.process_one_video
      (⟨fun _ _ => "txt", fun _ _ _ => "txt"⟩ : RunVideoDiff.VlmOracle Unit)
      (fun _ => ([()], ["0.jpg"])) (fun _ => 0) (fun _ => "serialized")
      [("results/folding/folding_001.json", "rec")]
      ⟨"folding", "folding_001", "frames/folding/folding_001"⟩ 8
      = ([("results/folding/folding_001.json", "rec")], []) :=
  skip_existing_zero_calls _ _ _ _ _ _ _ (by decide)

/-- Claim C2, counterexample: the record the orchestrator persists (the
`result` dict of lines 137–151 of `run_video_diff.py`) carries none of
the four information-density fields; here the record of a concrete
2-frame video. -/
theorem orchestrator_record_no_density_cex :
    (dictGet (RunVideoDiff.buildResult "folding_001" "folding" 2
        "frames/folding/folding_001" ["0.jpg", "1.jpg"] ["a", "b"]
        [RunVideoDiff.SENTINEL, "c"] 30 21 (1/2) 0 [1/2] [0])
      "info_density_baseline" = none) ∧
    (dictGet (RunVideoDiff.buildResult "folding_001" "folding" 2
        "frames/folding/folding_001" ["0.jpg", "1.jpg"] ["a", "b"]
        [RunVideoDiff.SENTINEL, "c"] 30 21 (1/2) 0 [1/2] [0])
      "info_density_diff" = none) ∧
    (dictGet (RunVideoDiff.buildResult "folding_001" "folding" 2
        "frames/folding/folding_001" ["0.jpg", "1.jpg"] ["a", "b"]
        [RunVideoDiff.SENTINEL, "c"] 30 21 (1/2) 0 [1/2] [0])
      "info_density_baseline_per_frame" = none) ∧
    (dictGet (RunVideoDiff.buildResult "folding_001" "folding" 2
        "frames/folding/folding_001" ["0.jpg", "1.jpg"] ["a", "b"]
        [RunVideoDiff.SENTINEL, "c"] 30 21 (1/2) 0 [1/2] [0])
      "info_density_diff_per_frame" = none) :=
  ⟨rfl, rfl, rfl, rfl⟩

/-- Claim C2, amended: every record written by the orchestrator consists
of exactly the thirteen identity, frame, text, token-count and
lexical-redundancy fields of the §6 schema, in source order; the four
information-density fields are not among them (they are added to the
persisted record by the recomputation utility, not by the orchestrator). -/
theorem orchestrator_record_fields (vid cls : String) (num_frames : ℕ)
    (frame_dir : String) (frame_files baseline_texts diff_texts : List String)
    (baseline_tokens diff_tokens : ℕ) (arb ard : ℚ) (rlb rld : List ℚ) :
    (RunVideoDiff.buildResult vid cls num_frames frame_dir frame_files baseline_texts
        diff_texts baseline_tokens diff_tokens arb ard rlb rld).map Prod.fst =
      ["video_id", "class", "num_frames", "frame_dir", "frame_files",
       "baseline_texts", "diff_texts", "baseline_tokens", "diff_tokens",
       "lexical_redundancy_baseline_avg", "lexical_redundancy_diff_avg",
       "lexical_redundancy_baseline_all", "lexical_redundancy_diff_all"] := rfl

/-- Claim C1: the persist step of `process_one_video` opens the final
output path with mode `"w"` and streams the serialized record into it
directly, so the write is not all-or-nothing: among the filesystem states
the write passes through is one (right after the `open`) in which the
result file exists but holds a strict prefix of the record — and the
existence check of a later run cannot tell it from a complete record. -/
theorem direct_write_partial_file_cex :
    ∃ s ∈ RunVideoDiff.directWriteStates []
        "results/folding/folding_001.json" "\x7b\"video_id\": \"folding_001\"\x7d",
      RunVideoDiff.fsExists s "results/folding/folding_001.json" = true ∧
      RunVideoDiff.fsGet s "results/folding/folding_001.json" ≠
        some "\x7b\"video_id\": \"folding_001\"\x7d" := by
  decide

/-- Claim C10: on a record with non-empty baseline and diff text lists,
`update_one_json` leaves every field outside the ten recomputed keys and
the five `DROP_KEYS` at its prior value, removes exactly the `DROP_KEYS`,
and assigns all ten recomputed metric fields. -/
theorem update_one_json_frame (encode : String → List ℕ) (data : Obj)
    (hb : UpdateMetrics.getTexts data "baseline_texts" ≠ [])
    (hd : UpdateMetrics.getTexts data "diff_texts" ≠ []) :
    (∀ k, k ∉ UpdateMetrics.UPDATED_KEYS → k ∉ UpdateMetrics.DROP_KEYS →
      dictGet (UpdateMetrics.update_one_json encode data) k = dictGet data k) ∧
    (∀ k ∈ UpdateMetrics.DROP_KEYS,
      dictGet (UpdateMetrics.update_one_json encode data) k = none) ∧
    (∀ k ∈ UpdateMetrics.UPDATED_KEYS,
      (dictGet (UpdateMetrics.update_one_json encode data) k).isSome = true) := by
  have hcond : ¬(UpdateMetrics.getTexts data "baseline_texts" = [] ∨
      UpdateMetrics.getTexts data "diff_texts" = []) := by
    simp [hb, hd]
  refine ⟨?_, ?_, ?_⟩
  · intro k hk1 hk2
    simp only [UpdateMetrics.UPDATED_KEYS, List.mem_cons, List.not_mem_nil, or_false,
      not_or] at hk1
    obtain ⟨n1, n2, n3, n4, n5, n6, n7, n8, n9, n10⟩ := hk1
    simp only [UpdateMetrics.update_one_json]
    rw [if_neg hcond, dictGet_foldl_erase]
    simp [dictGet_dictSet, hk2, n1, n2, n3, n4, n5, n6, n7, n8, n9, n10]
  · intro k hk
    simp only [UpdateMetrics.update_one_json]
    rw [if_neg hcond, dictGet_foldl_erase, if_pos hk]
  · intro k hk
    simp only [UpdateMetrics.UPDATED_KEYS, List.mem_cons, List.not_mem_nil, or_false] at hk
    simp only [UpdateMetrics.update_one_json]
    rw [if_neg hcond, dictGet_foldl_erase]
    rcases hk with rfl | rfl | rfl | rfl | rfl | rfl | rfl | rfl | rfl | rfl <;>
      simp [dictGet_dictSet, UpdateMetrics.DROP_KEYS]

/-- Claim C10, witness: a concrete record with an identity field, an
unrecognized extra field and an obsolete field — the first two keep their
prior values, the obsolete one is removed. -/
theorem update_one_json_frame_witness :
    dictGet (UpdateMetrics.update_one_json (fun s => s.data.map Char.toNat)
        [("video_id", JVal.jstr "v1"),
         ("class", JVal.jstr "folding"),
         ("baseline_texts", JVal.jarr [JVal.jstr "a b"]),
         ("diff_texts", JVal.jarr [JVal.jstr "c"]),
         ("visual_changes", JVal.jarr []),
         ("extra_field", JVal.jnum 7)])
      "video_id" = some (JVal.jstr "v1") ∧
    dictGet (UpdateMetrics.update_one_json (fun s => s.data.map Char.toNat)
        [("video_id", JVal.jstr "v1"),
         ("class", JVal.jstr "folding"),
         ("baseline_texts", JVal.jarr [JVal.jstr "a b"]),
         ("diff_texts", JVal.jarr [JVal.jstr "c"]),
         ("visual_changes", JVal.jarr []),
         ("extra_field", JVal.jnum 7)])
      "visual_changes" = none ∧
    dictGet (UpdateMetrics.update_one_json (fun s => s.data.map Char.toNat)
        [("video_id", JVal.jstr "v1"),
         ("class", JVal.jstr "folding"),
         ("baseline_texts", JVal.jarr [JVal.jstr "a b"]),
         ("diff_texts", JVal.jarr [JVal.jstr "c"]),
         ("visual_changes", JVal.jarr []),
         ("extra_field", JVal.jnum 7)])
      "extra_field" = some (JVal.jnum 7) := by
  have h := update_one_json_frame (fun s => s.data.map Char.toNat)
    [("video_id", JVal.jstr "v1"),
     ("class", JVal.jstr "folding"),
     ("baseline_texts", JVal.jarr [JVal.jstr "a b"]),
     ("diff_texts", JVal.jarr [JVal.jstr "c"]),
     ("visual_changes", JVal.jarr []),
     ("extra_field", JVal.jnum 7)] (by decide) (by decide)
  exact ⟨(h.1 "video_id" (by decide) (by decide)).trans rfl,
    h.2.1 "visual_changes" (by decide),
    (h.1 "extra_field" (by decide) (by decide)).trans rfl⟩

end Claims

end SemDiff
